import Mathlib

/-!
Verification development for the mcp-client-cli testing core
(`src/mcp_client_cli/testing/`): test orchestration (`mcp_tester.py`),
issue detection (`issue_detector.py`), remediation (`remediation.py`)
and performance testing (`performance_tester.py`).

Python floats are modelled as exact rationals (`ℚ`); every float literal
appearing in the relevant code (0.05, 0.1, 0.5, 0.8, 0.95, …) is exactly
representable, and the claims are about exact arithmetic.  Async side
effects (server probes, regex search, wall-clock time, `random.random()`)
are modelled as explicit oracle parameters; sleeps are modelled by
returning the list of slept delays.
-/

/-- The `TestStatus` enum from `mcp_tester.py`. -/
inductive TestStatus where
  | pending
  | running
  | passed
  | failed
  | skipped
  | error
deriving DecidableEq, Repr

/-- The statuses a finished sub-test can actually carry.  Every
`TestResult`-returning operation in `mcp_tester.py` returns one of
these four (never `pending`/`running`). -/
def TestStatus.terminal (s : TestStatus) : Prop :=
  s = TestStatus.passed ∨ s = TestStatus.failed ∨
  s = TestStatus.error ∨ s = TestStatus.skipped

instance (s : TestStatus) : Decidable s.terminal := by
  unfold TestStatus.terminal; infer_instance

/-- The entries of `TestResult.details` read back by
`run_comprehensive_test_suite` (`details.get("tool_count", 0)` and
`details.get("tool_names", [])`). -/
structure TestDetails where
  tool_count : Nat := 0
  tool_names : List String := []
deriving DecidableEq, Repr

/-- The `TestResult` dataclass from `mcp_tester.py` (the fields the claims
depend on; `timestamp` is wall-clock and omitted). -/
structure TestResult where
  test_name : String
  status : TestStatus
  confidence_score : ℚ
  execution_time : ℚ
  message : String := ""
  details : TestDetails := {}
  error_info : Option String := none
deriving DecidableEq, Repr

/-- The `TestSuite` dataclass from `mcp_tester.py`. -/
structure TestSuite where
  server_name : String
  total_tests : Nat
  passed_tests : Nat
  failed_tests : Nat
  error_tests : Nat
  skipped_tests : Nat
  overall_confidence : ℚ
  execution_time : ℚ
  results : List TestResult
deriving DecidableEq, Repr

/-- Outcomes of the individual checks invoked by
`run_comprehensive_test_suite` for one server.  Each field stands for
the `TestResult` returned by the corresponding `await`ed sub-test
(`validate_configuration`, `test_server_connectivity`,
`test_tool_discovery`, `test_tool_execution`). -/
structure SuiteOutcomes where
  configResult : TestResult
  connResult : TestResult
  discoveryResult : TestResult
  executionResult : String → TestResult

/-- The `test_results` list accumulated by the per-server loop of
`run_comprehensive_test_suite` (mcp_tester.py lines 425-452): config
validation, then connectivity, then (if connectivity passed) discovery,
then (if discovery passed with `tool_count > 0` and a nonempty
`tool_names`) one sample execution of the first tool. -/
def suiteResults (o : SuiteOutcomes) : List TestResult :=
  let base := [o.configResult, o.connResult]
  if o.connResult.status = TestStatus.passed then
    let d := o.discoveryResult
    let base := base ++ [d]
    if d.status = TestStatus.passed ∧ d.details.tool_count > 0 then
      match d.details.tool_names with
      | [] => base
      | t :: _ => base ++ [o.executionResult t]
    else base
  else base

/-- Suite statistics computed by `run_comprehensive_test_suite`
(mcp_tester.py lines 454-480): per-status tallies, mean confidence,
and the `TestSuite` record. -/
def makeSuite (name : String) (rs : List TestResult) (t : ℚ) : TestSuite :=
  { server_name := name
    total_tests := rs.length
    passed_tests := (rs.filter (fun r => r.status = TestStatus.passed)).length
    failed_tests := (rs.filter (fun r => r.status = TestStatus.failed)).length
    error_tests := (rs.filter (fun r => r.status = TestStatus.error)).length
    skipped_tests := (rs.filter (fun r => r.status = TestStatus.skipped)).length
    overall_confidence :=
      if rs.length ≠ 0 then (rs.map (fun r => r.confidence_score)).sum / rs.length
      else 0
    execution_time := t
    results := rs }

/-- One iteration of the per-server loop of
`run_comprehensive_test_suite`: build the result list from the
sub-test outcomes and aggregate it into a `TestSuite`. -/
def runSuiteFor (o : SuiteOutcomes) (name : String) (suiteTime : ℚ) : TestSuite :=
  makeSuite name (suiteResults o) suiteTime

/-- Concrete sub-test outcomes (all four checks pass) used to witness C1. -/
def w1Outcomes : SuiteOutcomes :=
  { configResult :=
      { test_name := "configuration_validation", status := TestStatus.passed
        confidence_score := 9/10, execution_time := 0 }
    connResult :=
      { test_name := "srv_connectivity", status := TestStatus.passed
        confidence_score := 19/20, execution_time := 0 }
    discoveryResult :=
      { test_name := "srv_tool_discovery", status := TestStatus.passed
        confidence_score := 9/10, execution_time := 0
        details := { tool_count := 1, tool_names := ["echo"] } }
    executionResult := fun tool =>
      { test_name := "srv_" ++ tool ++ "_execution", status := TestStatus.passed
        confidence_score := 17/20, execution_time := 0 } }

/-- The `IssueType` enum from `issue_detector.py`. -/
inductive IssueType where
  | connection_failure
  | timeout
  | authentication_error
  | tool_execution_error
  | configuration_error
  | resource_exhaustion
  | protocol_error
  | dependency_missing
  | permission_denied
  | unknown_error
deriving DecidableEq, Repr, Inhabited

/-- The `.value` string of each `IssueType` member. -/
def IssueType.value : IssueType → String
  | connection_failure => "connection_failure"
  | timeout => "timeout"
  | authentication_error => "authentication_error"
  | tool_execution_error => "tool_execution_error"
  | configuration_error => "configuration_error"
  | resource_exhaustion => "resource_exhaustion"
  | protocol_error => "protocol_error"
  | dependency_missing => "dependency_missing"
  | permission_denied => "permission_denied"
  | unknown_error => "unknown_error"

/-- The `IssueSeverity` enum from `issue_detector.py`. -/
inductive IssueSeverity where
  | critical
  | high
  | medium
  | low
  | info
deriving DecidableEq, Repr, Inhabited

/-- The `Issue` dataclass from `issue_detector.py` (fields the claims use;
`title`/`description`/`context`/`suggested_remediation`/`stack_trace`/
`timestamp` carry no claim-relevant structure and are omitted). -/
structure Issue where
  issue_id : String
  issue_type : IssueType
  severity : IssueSeverity
  confidence_score : ℚ
  server_name : String
  test_name : String
  error_message : String := ""
  related_issues : List String := []
deriving DecidableEq, Repr, Inhabited

/-- The `IssuePattern` dataclass from `issue_detector.py`. -/
structure IssuePattern where
  pattern_id : String
  issue_type : IssueType
  severity : IssueSeverity
  error_patterns : List String
  confidence_base : ℚ := 8/10
  remediation_suggestions : List String := []
deriving DecidableEq, Repr

/-- Function `_match_pattern` (issue_detector.py lines 504-533).  Real regex
search is modelled by the oracle `re : pattern → text → Bool`
standing for `re.search(pattern, text, re.IGNORECASE) is not None`. -/
def matchPattern (re : String → String → Bool) (p : IssuePattern)
    (error_text : String) (r : TestResult) : ℚ :=
  let pattern_matches := (p.error_patterns.filter (fun ep => re ep error_text)).length
  if pattern_matches = 0 then 0
  else
    let confidence :=
      if pattern_matches = 1 then p.confidence_base
      else p.confidence_base +
        (1 - p.confidence_base) *
          min ((pattern_matches : ℚ) / (p.error_patterns.length : ℚ)) 1 * (1/2)
    let confidence :=
      if r.execution_time > 10 ∧ p.issue_type = IssueType.timeout
      then min (confidence + 1/10) 1 else confidence
    let confidence :=
      if r.status = TestStatus.error then min (confidence + 1/20) 1 else confidence
    confidence

/-- The error-text blob built at the top of `_analyze_single_failure`:
`error_info` (when present) followed by `" " + message` (when the
message is nonempty). -/
def errorText (r : TestResult) : String :=
  (match r.error_info with
   | some s => s
   | none => "") ++
  (if r.message ≠ "" then (" ") ++ r.message else (""))

/-- The server name extracted by the detector from a test name: the
part before the first underscore when the name has one, else the
string "unknown". -/
def serverNameOf (test_name : String) : String :=
  match test_name.splitOn ("_") with
  | [] => "unknown"
  | [_] => "unknown"
  | s :: _ :: _ => s

/-- The `Issue` built for a matched pattern in `_analyze_single_failure`
(`int(time.time())` modelled by the parameter `now`). -/
def mkPatternIssue (now : Nat) (p : IssuePattern) (r : TestResult) (conf : ℚ) : Issue :=
  { issue_id := r.test_name ++ "_" ++ p.pattern_id ++ "_" ++ toString now
    issue_type := p.issue_type
    severity := p.severity
    confidence_score := conf
    server_name := serverNameOf r.test_name
    test_name := r.test_name
    error_message := r.message
    related_issues := [] }

/-- The generic `UNKNOWN_ERROR` `Issue` built by
`_analyze_single_failure` when no pattern matched and the result's
status is `error`. -/
def genericIssue (now : Nat) (r : TestResult) : Issue :=
  { issue_id := r.test_name ++ "_unknown_" ++ toString now
    issue_type := IssueType.unknown_error
    severity := IssueSeverity.medium
    confidence_score := 3/5
    server_name := serverNameOf r.test_name
    test_name := r.test_name
    error_message := r.message
    related_issues := [] }

/-- Function `_analyze_single_failure` (issue_detector.py lines 440-502): one
candidate `Issue` per pattern whose match confidence exceeds 0.5, in
pattern order; if none matched and the result's status is `error`, a
single generic issue. -/
def analyzeSingleFailure (re : String → String → Bool) (now : Nat)
    (patterns : List IssuePattern) (r : TestResult) : List Issue :=
  let etext := errorText r
  let detected :=
    (patterns.filter (fun p => matchPattern re p etext r > 1/2)).map
      (fun p => mkPatternIssue now p r (matchPattern re p etext r))
  if detected = [] ∧ r.status = TestStatus.error then [genericIssue now r]
  else detected

/-- The grouping key `f"{issue.server_name}_{issue.issue_type.value}"`
used by `_group_related_issues`. -/
def issueKey (i : Issue) : String := i.server_name ++ "_" ++ i.issue_type.value

/-- Key insertion preserving first-occurrence order (the behaviour of
`defaultdict` key creation in `_group_related_issues`). -/
def insertKey (ks : List String) (k : String) : List String :=
  if k ∈ ks then ks else ks ++ [k]

/-- The grouping keys in first-occurrence order (Python dicts iterate
keys in insertion order). -/
def firstKeys (issues : List Issue) : List String :=
  issues.foldl (fun ks i => insertKey ks (issueKey i)) []

/-- Merging of one key group (issue_detector.py lines 556-567): a
singleton group is kept as is; a larger group collapses to its first
member with confidence `min(c + (len-1)*0.05, 1.0)` and the other
members' ids recorded in `related_issues`. -/
def mergeGroup : List Issue → List Issue
  | [] => []
  | [i] => [i]
  | i :: x :: rest =>
      [{ i with
          confidence_score :=
            min (i.confidence_score + (((x :: rest).length : ℚ)) * (1/20)) 1
          related_issues := (x :: rest).map (fun j => j.issue_id) }]

/-- Function `_group_related_issues` (issue_detector.py lines 545-569). -/
def groupRelatedIssues (issues : List Issue) : List Issue :=
  (firstKeys issues).flatMap (fun k => mergeGroup (issues.filter (fun i => issueKey i = k)))

/-- Concrete regex oracle for the C2 witness: exactly the alternatives
`"timeout"` and `"timed out"` match the concrete error text. -/
def w2re : String → String → Bool := fun pat text =>
  (pat = "timeout" || pat = "timed out") && text = "TimeoutError: timed out"

/-- The `timeout_error` pattern of `_initialize_patterns`. -/
def w2p : IssuePattern :=
  { pattern_id := "timeout_error"
    issue_type := IssueType.timeout
    severity := IssueSeverity.medium
    error_patterns := ["timeout", "timed out", "TimeoutError", "asyncio\\.timeout"]
    confidence_base := 9/10 }

/-- A concrete failed result whose error text two alternatives match. -/
def w2r : TestResult :=
  { test_name := "srv_tool_benchmark", status := TestStatus.failed
    confidence_score := 9/10, execution_time := 12
    message := "timed out", error_info := some ("TimeoutError:") }

/-- A failed result none of whose text matches any pattern. -/
def w10failed : TestResult :=
  { test_name := "srv_connectivity", status := TestStatus.failed
    confidence_score := 9/10, execution_time := 1
    message := "response mismatch" }

/-- The same scenario with status `error`. -/
def w10error : TestResult :=
  { test_name := "srv_connectivity", status := TestStatus.error
    confidence_score := 17/20, execution_time := 1
    message := "response mismatch" }

/-- A duplicate issue for the C3 witness: three of these share the pair
("srv", connection_failure). -/
def w3issue (n : String) (c : ℚ) : Issue :=
  { issue_id := n
    issue_type := IssueType.connection_failure
    severity := IssueSeverity.high
    confidence_score := c
    server_name := "srv"
    test_name := "srv_connectivity" }

/-- The `RemediationStatus` enum from `remediation.py`. -/
inductive RemediationStatus where
  | pending
  | in_progress
  | success
  | failed
  | partial_success
  | skipped
deriving DecidableEq, Repr

/-- The `RemediationResult` dataclass from `remediation.py` (claim-relevant
fields; the `details` map's `"attempts"` entry is `details_attempts`;
`execution_time`/`timestamp` are wall-clock and omitted). -/
structure RemediationResult where
  action_id : String
  issue_id : String
  status : RemediationStatus
  confidence_score : ℚ
  message : String := ""
  details_attempts : Nat := 0
  error_info : Option String := none
deriving DecidableEq, Repr

/-- Function `get_success_rate` (remediation.py lines 799-811).  Note the
source's `if issue_type:` branch holds only `pass`: the filter is never
applied, so the optional argument has no effect. -/
def getSuccessRate (history : List RemediationResult)
    (issue_type : Option IssueType) : ℚ :=
  let relevant := history
  if relevant = [] then 0
  else ((relevant.filter fun r => r.status = RemediationStatus.success).length : ℚ) /
    (relevant.length : ℚ)

/-- The typed success rate that claim C5 asserts for
`get_success_rate(issue_type=t)`: attempts are restricted to those
whose referenced issue has type `t` (the association of attempts to
issue types is the map `typeOf` from `issue_id`s, which is all a
`RemediationResult` records about its issue), then successes are
divided by attempts.  Stated from the claim's words for comparison;
the source does not implement it. -/
def claimedTypedSuccessRate (history : List RemediationResult)
    (typeOf : String → IssueType) (t : IssueType) : ℚ :=
  let relevant := history.filter fun r => typeOf r.issue_id = t
  if relevant = [] then 0
  else ((relevant.filter fun r => r.status = RemediationStatus.success).length : ℚ) /
    (relevant.length : ℚ)

/-- The `RetryConfig` dataclass from `remediation.py` with its defaults. -/
structure RetryConfig where
  max_attempts : Nat := 3
  base_delay : ℚ := 1
  max_delay : ℚ := 60
  exponential_base : ℚ := 2
  jitter : Bool := true
  timeout : ℚ := 30
deriving DecidableEq, Repr

/-- The un-jittered backoff delay slept before loop iteration
`attempt ≥ 1` of `_execute_retry_strategy`:
`min(base_delay * exponential_base ** (attempt - 1), max_delay)`. -/
def retryDelay (cfg : RetryConfig) (attempt : Nat) : ℚ :=
  min (cfg.base_delay * cfg.exponential_base ^ (attempt - 1)) cfg.max_delay

/-- The delay actually slept: when `cfg.jitter` is set the source
multiplies by `0.5 + random.random() * 0.5`; `rand attempt` models the
`random.random()` draw of that loop iteration. -/
def jitteredDelay (cfg : RetryConfig) (rand : Nat → ℚ) (attempt : Nat) : ℚ :=
  if cfg.jitter then retryDelay cfg attempt * (1/2 + rand attempt * (1/2))
  else retryDelay cfg attempt

/-- The retry loop of `_execute_retry_strategy` (remediation.py lines
360-392): `attempt` is the 0-based loop counter, `remaining` the
iterations left, `delays` the sleeps performed so far, `probe` models
`_test_server_connectivity`.  Returns `some (attempt+1)` at the first
successful probe (the reported attempt count), else `none`, paired
with every slept delay in order. -/
def retryLoop (cfg : RetryConfig) (probe : Nat → Bool) (rand : Nat → ℚ) :
    Nat → Nat → List ℚ → Option Nat × List ℚ
  | _, 0, delays => (none, delays)
  | attempt, n+1, delays =>
    let delays := if attempt > 0 then delays ++ [jitteredDelay cfg rand attempt]
      else delays
    if probe attempt then (some (attempt + 1), delays)
    else retryLoop cfg probe rand (attempt + 1) n delays

/-- Function `_execute_retry_strategy`: the produced `RemediationResult`
(success on the first successful probe within `max_attempts`, failure
otherwise) paired with the slept delays. -/
def executeRetryStrategy (cfg : RetryConfig) (probe : Nat → Bool) (rand : Nat → ℚ)
    (actionId issueId : String) (actionConf : ℚ) : RemediationResult × List ℚ :=
  match retryLoop cfg probe rand 0 cfg.max_attempts [] with
  | (some k, ds) =>
    ({ action_id := actionId, issue_id := issueId
       status := RemediationStatus.success, confidence_score := actionConf
       message := "Retry successful after (" ++ toString k ++ ") attempts"
       details_attempts := k }, ds)
  | (none, ds) =>
    ({ action_id := actionId, issue_id := issueId
       status := RemediationStatus.failed, confidence_score := 0
       message := "Retry failed after (" ++ toString cfg.max_attempts ++ ") attempts"
       details_attempts := cfg.max_attempts }, ds)

/-- Concrete history for C5: one successful attempt on issue "a", one
failed attempt on issue "b". -/
def w5success : RemediationResult :=
  { action_id := "retry_connection", issue_id := "a"
    status := RemediationStatus.success, confidence_score := 4/5 }

/-- The failed attempt of the C5 history. -/
def w5failed : RemediationResult :=
  { action_id := "retry_connection", issue_id := "b"
    status := RemediationStatus.failed, confidence_score := 0 }

/-- Issue-type association for the C5 history: issue "a" is a timeout
issue, everything else a connection failure. -/
def w5typeOf : String → IssueType := fun iid =>
  if iid = "a" then IssueType.timeout else IssueType.connection_failure

/-- The `PerformanceTestConfig` dataclass from `performance_tester.py`
with its defaults. -/
structure PerformanceTestConfig where
  test_response_times : Bool := true
  test_concurrent_connections : Bool := true
  test_resource_usage : Bool := true
  test_load_capacity : Bool := true
  test_memory_leaks : Bool := true
  max_concurrent_connections : Nat := 50
  test_duration_seconds : Nat := 60
  warmup_duration_seconds : Nat := 10
  cooldown_duration_seconds : Nat := 5
  max_response_time_ms : ℚ := 2000
  max_memory_usage_mb : ℚ := 512
  max_cpu_usage_percent : ℚ := 80
  min_success_rate : ℚ := 19/20
deriving DecidableEq, Repr

/-- The `PerformanceMetrics` dataclass from `performance_tester.py`. -/
structure PerformanceMetrics where
  response_times : List ℚ := []
  memory_usage : List ℚ := []
  cpu_usage : List ℚ := []
  success_count : Nat := 0
  failure_count : Nat := 0
  error_count : Nat := 0
  avg_response_time : ℚ := 0
  min_response_time : ℚ := 0
  max_response_time : ℚ := 0
  p95_response_time : ℚ := 0
  p99_response_time : ℚ := 0
  avg_memory_usage : ℚ := 0
  peak_memory_usage : ℚ := 0
  avg_cpu_usage : ℚ := 0
  peak_cpu_usage : ℚ := 0
  success_rate : ℚ := 0
  throughput_rps : ℚ := 0
deriving DecidableEq, Repr

/-- The `LoadTestResult` dataclass from `performance_tester.py`. -/
structure LoadTestResult where
  scenario_name : String
  concurrent_users : Nat
  test_duration : ℚ
  metrics : PerformanceMetrics
  performance_grade : String := "unknown"
  bottlenecks_detected : List String := []
deriving DecidableEq, Repr

/-- Python `min(...)` over a nonempty sample list (0 on an empty one; the
source only evaluates it under a nonemptiness guard). -/
def listMin (l : List ℚ) : ℚ :=
  match l with
  | [] => 0
  | x :: xs => xs.foldl min x

/-- Python `max(...)` over a nonempty sample list (0 on an empty one). -/
def listMax (l : List ℚ) : ℚ :=
  match l with
  | [] => 0
  | x :: xs => xs.foldl max x

/-- Insertion step of ascending sorting (`sorted(...)`). -/
def insertSorted (x : ℚ) : List ℚ → List ℚ
  | [] => [x]
  | y :: ys => if x ≤ y then x :: y :: ys else y :: insertSorted x ys

/-- Python's `sorted(...)` on rational samples (ascending). -/
def sortAsc (l : List ℚ) : List ℚ := l.foldr insertSorted []

/-- Method `PerformanceMetrics.calculate_derived_metrics`
(performance_tester.py lines 77-103).  `int(0.95 * n)` and
`int(0.99 * n)` are modelled as the exact `⌊19n/20⌋`/`⌊99n/100⌋`:
for every list length the float products round to values with the
same integer part. -/
def calculateDerivedMetrics (m : PerformanceMetrics)
    (test_duration : ℚ) : PerformanceMetrics :=
  let m :=
    if m.response_times ≠ [] then
      let sorted_times := sortAsc m.response_times
      let n := m.response_times.length
      { m with
        avg_response_time := m.response_times.sum / (n : ℚ)
        min_response_time := listMin m.response_times
        max_response_time := listMax m.response_times
        p95_response_time := if n > 0 then sorted_times.getD ((19 * n) / 20) 0 else 0
        p99_response_time := if n > 0 then sorted_times.getD ((99 * n) / 100) 0 else 0 }
    else m
  let m :=
    if m.memory_usage ≠ [] then
      { m with
        avg_memory_usage := m.memory_usage.sum / (m.memory_usage.length : ℚ)
        peak_memory_usage := listMax m.memory_usage }
    else m
  let m :=
    if m.cpu_usage ≠ [] then
      { m with
        avg_cpu_usage := m.cpu_usage.sum / (m.cpu_usage.length : ℚ)
        peak_cpu_usage := listMax m.cpu_usage }
    else m
  let total_requests := m.success_count + m.failure_count + m.error_count
  { m with
    success_rate :=
      if total_requests > 0 then (m.success_count : ℚ) / (total_requests : ℚ) else 0
    throughput_rps :=
      if test_duration > 0 then (total_requests : ℚ) / test_duration else 0 }

/-- The score computed by `_calculate_performance_grade`
(performance_tester.py lines 862-881). -/
def performanceScore (cfg : PerformanceTestConfig) (m : PerformanceMetrics) : ℤ :=
  let score : ℤ := 100
  let score :=
    if m.avg_response_time > cfg.max_response_time_ms then score - 20
    else if m.avg_response_time > cfg.max_response_time_ms * (8/10) then score - 10
    else score
  let score :=
    if m.success_rate < cfg.min_success_rate then score - 30
    else if m.success_rate < 98/100 then score - 15
    else score
  if m.p95_response_time > cfg.max_response_time_ms * (3/2) then score - 15 else score

/-- The score-to-letter mapping of `_calculate_performance_grade`
(performance_tester.py lines 883-892). -/
def scoreToGrade (score : ℤ) : String :=
  if score ≥ 90 then ("A")
  else if score ≥ 80 then ("B")
  else if score ≥ 70 then ("C")
  else if score ≥ 60 then ("D")
  else ("F")

/-- Function `_calculate_performance_grade`. -/
def calculatePerformanceGrade (cfg : PerformanceTestConfig)
    (m : PerformanceMetrics) : String :=
  scoreToGrade (performanceScore cfg m)

/-- Numeric rank of a grade letter (F worst, A best), used to state
monotonicity of the grade mapping. -/
def gradeRank : String → Nat
  | "A" => 4
  | "B" => 3
  | "C" => 2
  | "D" => 1
  | _ => 0

/-- The escalation levels of `test_concurrent_connections`
(performance_tester.py lines 276-278). -/
def connectionLevels (cfg : PerformanceTestConfig) : List Nat :=
  [1, 5, 10, 20, 30] ++
    (if cfg.max_concurrent_connections > 30 then [cfg.max_concurrent_connections]
     else [])

/-- The escalation loop of `test_concurrent_connections`
(performance_tester.py lines 282-299): run the levels in order, keep
every obtained `LoadTestResult`, and stop (after recording the level)
as soon as its `success_rate < 0.5`.  The per-level load test
`_run_load_test` is the oracle `loadTest`. -/
def escalationResults (loadTest : Nat → LoadTestResult) : List Nat → List LoadTestResult
  | [] => []
  | l :: rest =>
    let r := loadTest l
    if r.metrics.success_rate < 1/2 then [r]
    else r :: escalationResults loadTest rest

/-- The analysis loop of `test_concurrent_connections`
(performance_tester.py lines 301-310): walk the obtained results in
order; while `success_rate ≥ min_success_rate` record the level as
`max_stable_connections`; at the first level below the minimum record
it as the breakdown point and stop. -/
def analyzeLoadResults (minRate : ℚ) (maxStable : Nat) :
    List LoadTestResult → Nat × Option Nat
  | [] => (maxStable, none)
  | r :: rest =>
    if r.metrics.success_rate ≥ minRate then
      analyzeLoadResults minRate r.concurrent_users rest
    else (maxStable, some r.concurrent_users)

/-- Function `test_concurrent_connections` (performance_tester.py lines
258-345), reduced to its observable data: the tested load results,
the reported `max_stable_connections` and the breakdown point. -/
def testConcurrentConnections (cfg : PerformanceTestConfig)
    (loadTest : Nat → LoadTestResult) : List LoadTestResult × Nat × Option Nat :=
  let tested := escalationResults loadTest (connectionLevels cfg)
  (tested, analyzeLoadResults cfg.min_success_rate 0 tested)

/-- The value claim C4 asserts for `max_stable_connections`: the
highest concurrency level among all actually tested results whose
success rate is at least the configured minimum. -/
def highestStableTested (minRate : ℚ) (rs : List LoadTestResult) : Nat :=
  ((rs.filter fun r => minRate ≤ r.metrics.success_rate).map
      (fun r => r.concurrent_users)).foldl max 0

/-- Function `_analyze_memory_trend` (performance_tester.py lines 912-939):
least-squares slope of the samples over their indices, scaled by
`sample_count / mean`; 0 with fewer than 10 samples, a zero
denominator, or a non-positive mean. -/
def analyzeMemoryTrend (memory_samples : List ℚ) : ℚ :=
  if memory_samples.length < 10 then 0
  else
    let n := memory_samples.length
    let x_values := (List.range n).map (fun i : ℕ => (i : ℚ))
    let x_mean := x_values.sum / (n : ℚ)
    let y_mean := memory_samples.sum / (n : ℚ)
    let numerator :=
      ((x_values.zip memory_samples).map
        (fun p => (p.1 - x_mean) * (p.2 - y_mean))).sum
    let denominator := (x_values.map (fun x => (x - x_mean) ^ 2)).sum
    if denominator = 0 then 0
    else
      let slope := numerator / denominator
      if y_mean > 0 then slope * (n : ℚ) / y_mean else 0

/-- Level of the last result in a list, `acc` when empty. -/
def lastLevelD (acc : Nat) : List LoadTestResult → Nat
  | [] => acc
  | [r] => r.concurrent_users
  | _ :: rest => lastLevelD acc rest

/-- The load-test oracle of the C4 counterexample: success rates 0.9
at level 1, 0.96 at level 5, 0.4 everywhere above. -/
def w4load : Nat → LoadTestResult := fun l =>
  { scenario_name := "load_test"
    concurrent_users := l
    test_duration := 30
    metrics :=
      { success_rate := if l = 1 then 9/10 else if l = 5 then 24/25 else 2/5 } }

/-- The metrics of the C7 example: samples [100,200,150,250,300] ms,
4 successes, 1 failure. -/
def w7m : PerformanceMetrics :=
  { response_times := [100, 200, 150, 250, 300]
    success_count := 4
    failure_count := 1 }

/-- The ordinary-least-squares slope of samples over their 0-based
indices, exactly as computed inside `_analyze_memory_trend`
(`numerator / denominator` of the centered sums). -/
def olsSlope (samples : List ℚ) : ℚ :=
  let n := samples.length
  let x_values := (List.range n).map (fun i : ℕ => (i : ℚ))
  let x_mean := x_values.sum / (n : ℚ)
  let y_mean := samples.sum / (n : ℚ)
  (((x_values.zip samples).map
      (fun p => (p.1 - x_mean) * (p.2 - y_mean))).sum) /
    ((x_values.map (fun x => (x - x_mean) ^ 2)).sum)

/-- Helper: over a list whose statuses are all terminal, the four
per-status tallies sum to the length. -/
theorem terminal_counts_sum (rs : List TestResult)
    (h : ∀ r ∈ rs, r.status.terminal) :
    (rs.filter (fun r => r.status = TestStatus.passed)).length +
    (rs.filter (fun r => r.status = TestStatus.failed)).length +
    (rs.filter (fun r => r.status = TestStatus.error)).length +
    (rs.filter (fun r => r.status = TestStatus.skipped)).length = rs.length := by
  induction rs with
  | nil => simp
  | cons r rs ih =>
    have hr := h r (by simp)
    have hrest : ∀ x ∈ rs, x.status.terminal := fun x hx => h x (by simp [hx])
    have := ih hrest
    rcases hr with h1 | h1 | h1 | h1 <;>
      simp [List.filter_cons, h1, TestStatus.terminal] <;> omega

/-- The list built by `run_comprehensive_test_suite` always starts with
the config-validation and connectivity results, hence is nonempty. -/
theorem suiteResults_ne_nil (o : SuiteOutcomes) : suiteResults o ≠ [] := by
  unfold suiteResults
  dsimp only
  split
  · split
    · split <;> simp
    · simp
  · simp

/-- C1: For every TestSuite produced by `run_comprehensive_test_suite`,
`overall_confidence` is the arithmetic mean of the contained results'
`confidence_score`, the passed/failed/error/skipped tallies sum to
`total_tests`, and `total_tests` is the number of contained results.
(The tally hypothesis records that every sub-test of `mcp_tester.py`
returns a terminal status - never `pending`/`running`.) -/
theorem c1_runSuite_stats (o : SuiteOutcomes) (name : String) (t : ℚ)
    (hterm : ∀ r ∈ suiteResults o, r.status.terminal) :
    (runSuiteFor o name t).overall_confidence =
      ((runSuiteFor o name t).results.map (fun r => r.confidence_score)).sum /
        ((runSuiteFor o name t).results.length : ℚ) ∧
    (runSuiteFor o name t).passed_tests + (runSuiteFor o name t).failed_tests +
      (runSuiteFor o name t).error_tests + (runSuiteFor o name t).skipped_tests =
      (runSuiteFor o name t).total_tests ∧
    (runSuiteFor o name t).total_tests = (runSuiteFor o name t).results.length := by
  refine ⟨?_, ?_, rfl⟩
  · show (if (suiteResults o).length ≠ 0 then _ else _) = _
    rw [if_pos (fun h => suiteResults_ne_nil o (List.length_eq_zero.mp h))]
    rfl
  · exact terminal_counts_sum (suiteResults o) hterm

/-- Witness for C1 at a concrete run. -/
theorem c1_runSuite_stats_witness :
    (runSuiteFor w1Outcomes ("srv") 1).overall_confidence =
      ((runSuiteFor w1Outcomes ("srv") 1).results.map (fun r => r.confidence_score)).sum /
        ((runSuiteFor w1Outcomes ("srv") 1).results.length : ℚ) ∧
    (runSuiteFor w1Outcomes ("srv") 1).passed_tests + (runSuiteFor w1Outcomes ("srv") 1).failed_tests +
      (runSuiteFor w1Outcomes ("srv") 1).error_tests + (runSuiteFor w1Outcomes ("srv") 1).skipped_tests =
      (runSuiteFor w1Outcomes ("srv") 1).total_tests ∧
    (runSuiteFor w1Outcomes ("srv") 1).total_tests = (runSuiteFor w1Outcomes ("srv") 1).results.length :=
  c1_runSuite_stats w1Outcomes ("srv") 1 (by decide)

/-- C2: The pattern-match confidence of `_match_pattern`: with `m` the
number of regex alternatives of the pattern matching the result's
error_info+message text, `m = 0` yields confidence 0 (no issue from the
pattern); `m = 1` yields `confidence_base`; `m > 1` yields
`base + (1-base) * min(m/total,1) * 0.5`; then +0.10 is added when the
pattern's type is TIMEOUT and `execution_time > 10`, and +0.05 when the
source result's status is `error`, each addition clamped at 1.0.  An
issue is produced from a pattern in `_analyze_single_failure` exactly
when the final confidence exceeds 0.5. -/
theorem c2_match_pattern_confidence (re : String → String → Bool) (now : Nat)
    (ps : List IssuePattern) (p : IssuePattern) (r : TestResult) :
    (((p.error_patterns.filter (fun ep => re ep (errorText r))).length = 0 →
        matchPattern re p (errorText r) r = 0) ∧
      (∀ m : Nat, m = (p.error_patterns.filter (fun ep => re ep (errorText r))).length →
        1 ≤ m →
        matchPattern re p (errorText r) r =
          (let base := p.confidence_base
           let raw : ℚ :=
             if m = 1 then base
             else base + (1 - base) * min ((m : ℚ) / (p.error_patterns.length : ℚ)) 1 * (1/2)
           let withTimeout :=
             if r.execution_time > 10 ∧ p.issue_type = IssueType.timeout
             then min (raw + 1/10) 1 else raw
           if r.status = TestStatus.error then min (withTimeout + 1/20) 1
           else withTimeout))) ∧
    (∀ q ∈ ps, matchPattern re q (errorText r) r > 1/2 →
        mkPatternIssue now q r (matchPattern re q (errorText r) r) ∈
          analyzeSingleFailure re now ps r) ∧
    (∀ i ∈ analyzeSingleFailure re now ps r,
        i = genericIssue now r ∨
        ∃ q ∈ ps, matchPattern re q (errorText r) r > 1/2 ∧
          i = mkPatternIssue now q r (matchPattern re q (errorText r) r)) := by
  refine ⟨⟨?_, ?_⟩, ?_, ?_⟩
  · intro h0
    unfold matchPattern
    rw [if_pos h0]
  · intro m hm h1
    subst hm
    unfold matchPattern
    dsimp only
    rw [if_neg (by omega :
      ¬ (List.filter (fun ep => re ep (errorText r)) p.error_patterns).length = 0)]
  · intro q hq hconf
    unfold analyzeSingleFailure
    dsimp only
    have hmem : mkPatternIssue now q r (matchPattern re q (errorText r) r) ∈
        (ps.filter (fun p => matchPattern re p (errorText r) r > 1/2)).map
          (fun p => mkPatternIssue now p r (matchPattern re p (errorText r) r)) :=
      List.mem_map_of_mem _ (List.mem_filter.mpr ⟨hq, by simpa using hconf⟩)
    rw [if_neg]
    · exact hmem
    · rintro ⟨hnil, -⟩
      rw [hnil] at hmem
      exact absurd hmem (List.not_mem_nil _)
  · intro i hi
    unfold analyzeSingleFailure at hi
    dsimp only at hi
    by_cases hc :
        ((ps.filter (fun p => matchPattern re p (errorText r) r > 1/2)).map
          (fun p => mkPatternIssue now p r (matchPattern re p (errorText r) r)) = [] ∧
          r.status = TestStatus.error)
    · rw [if_pos hc] at hi
      left
      simpa using hi
    · rw [if_neg hc] at hi
      right
      rcases List.mem_map.mp hi with ⟨q, hq, rfl⟩
      rcases List.mem_filter.mp hq with ⟨hqs, hconf⟩
      exact ⟨q, hqs, by simpa using hconf, rfl⟩

/-- Witness for C2 at a concrete two-alternative match. -/
theorem c2_match_pattern_confidence_witness :
    mkPatternIssue 7 w2p w2r (matchPattern w2re w2p (errorText w2r) w2r) ∈
      analyzeSingleFailure w2re 7 [w2p] w2r :=
  (c2_match_pattern_confidence w2re 7 [w2p] w2p w2r).2.1 w2p (by simp)
    (by norm_num +decide [matchPattern, errorText, w2re, w2p, w2r, List.filter, min_def])

/-- C10: When no pattern scores above the 0.5 threshold on a result,
`_analyze_single_failure` produces no issue at all if the result's
status is `failed`; the generic UNKNOWN_ERROR fallback (confidence 0.6,
severity medium) is produced only when the status is `error`. -/
theorem c10_no_generic_for_failed (re : String → String → Bool) (now : Nat)
    (ps : List IssuePattern) (r : TestResult)
    (hnomatch : ∀ p ∈ ps, matchPattern re p (errorText r) r ≤ 1/2) :
    (r.status = TestStatus.failed → analyzeSingleFailure re now ps r = []) ∧
    (r.status = TestStatus.error →
      analyzeSingleFailure re now ps r = [genericIssue now r] ∧
      (genericIssue now r).issue_type = IssueType.unknown_error ∧
      (genericIssue now r).confidence_score = 3/5 ∧
      (genericIssue now r).severity = IssueSeverity.medium) := by
  have hfilter : ps.filter (fun p => matchPattern re p (errorText r) r > 1/2) = [] := by
    rw [List.filter_eq_nil_iff]
    intro p hp
    simpa using not_lt.mpr (hnomatch p hp)
  constructor
  · intro hst
    unfold analyzeSingleFailure
    dsimp only
    rw [hfilter]
    simp [hst]
  · intro hst
    refine ⟨?_, rfl, rfl, rfl⟩
    unfold analyzeSingleFailure
    dsimp only
    rw [hfilter]
    simp [hst]

/-- Witness for C10: with no pattern matching, a failed result yields
no issue while an errored one yields exactly the generic issue. -/
theorem c10_no_generic_for_failed_witness :
    analyzeSingleFailure (fun _ _ => false) 3 [w2p] w10failed = [] ∧
    analyzeSingleFailure (fun _ _ => false) 3 [w2p] w10error =
      [genericIssue 3 w10error] :=
  ⟨(c10_no_generic_for_failed (fun _ _ => false) 3 [w2p] w10failed
      (by norm_num +decide [matchPattern, errorText, w2p, w10failed, List.filter])).1 rfl,
   ((c10_no_generic_for_failed (fun _ _ => false) 3 [w2p] w10error
      (by norm_num +decide [matchPattern, errorText, w2p, w10error, List.filter])).2 rfl).1⟩

theorem mem_insertKey {ks : List String} {k kn : String} :
    k ∈ insertKey ks kn ↔ k ∈ ks ∨ k = kn := by
  unfold insertKey
  split <;> rename_i h
  · constructor
    · exact Or.inl
    · rintro (hk | rfl)
      · exact hk
      · exact h
  · simp

theorem nodup_insertKey {ks : List String} {kn : String} (h : ks.Nodup) :
    (insertKey ks kn).Nodup := by
  unfold insertKey
  split <;> rename_i hmem
  · exact h
  · rw [List.nodup_append]
    refine ⟨h, List.nodup_singleton _, ?_⟩
    intro a ha hb
    rw [List.mem_singleton] at hb
    subst hb
    exact hmem ha

theorem mem_foldl_insertKey (issues : List Issue) (ks : List String) (k : String) :
    (k ∈ issues.foldl (fun a i => insertKey a (issueKey i)) ks) ↔
      k ∈ ks ∨ ∃ i ∈ issues, issueKey i = k := by
  induction issues generalizing ks with
  | nil => simp
  | cons i issues ih =>
    rw [List.foldl_cons, ih, mem_insertKey]
    constructor
    · rintro ((hk | hk) | ⟨j, hj, hkey⟩)
      · exact Or.inl hk
      · exact Or.inr ⟨i, by simp, hk.symm⟩
      · exact Or.inr ⟨j, by simp [hj], hkey⟩
    · rintro (hk | ⟨j, hj, hkey⟩)
      · exact Or.inl (Or.inl hk)
      · rcases List.mem_cons.mp hj with rfl | hj
        · exact Or.inl (Or.inr hkey.symm)
        · exact Or.inr ⟨j, hj, hkey⟩

theorem nodup_foldl_insertKey (issues : List Issue) (ks : List String)
    (h : ks.Nodup) :
    (issues.foldl (fun a i => insertKey a (issueKey i)) ks).Nodup := by
  induction issues generalizing ks with
  | nil => exact h
  | cons i issues ih => exact ih _ (nodup_insertKey h)

theorem mem_firstKeys (issues : List Issue) (k : String) :
    k ∈ firstKeys issues ↔ ∃ i ∈ issues, issueKey i = k := by
  rw [firstKeys, mem_foldl_insertKey]
  simp

theorem nodup_firstKeys (issues : List Issue) : (firstKeys issues).Nodup :=
  nodup_foldl_insertKey issues [] (List.nodup_nil)

/-- Merging keeps the group's key: the representative is the first
member with only `confidence_score`/`related_issues` changed. -/
theorem issueKey_mergeGroup {g : List Issue} {k : String}
    (h : ∀ i ∈ g, issueKey i = k) :
    ∀ j ∈ mergeGroup g, issueKey j = k := by
  match g with
  | [] => simp [mergeGroup]
  | [i] =>
    intro j hj
    rw [mergeGroup] at hj
    rw [List.mem_singleton] at hj
    subst hj
    exact h j (by simp)
  | i :: x :: rest =>
    intro j hj
    rw [mergeGroup, List.mem_singleton] at hj
    subst hj
    exact h i (by simp)

theorem filter_flatMap_mergeGroup (issues : List Issue) (ks : List String)
    (hnd : ks.Nodup) (k : String) :
    ((ks.flatMap fun kx => mergeGroup (issues.filter fun i => issueKey i = kx)).filter
        (fun i => issueKey i = k)) =
      if k ∈ ks then mergeGroup (issues.filter fun i => issueKey i = k) else [] := by
  induction ks with
  | nil => simp
  | cons kx ks ih =>
    rw [List.flatMap_cons, List.filter_append, ih hnd.of_cons]
    have hgrp : ∀ i ∈ issues.filter (fun i => issueKey i = kx), issueKey i = kx := by
      intro i hi
      simpa using (List.mem_filter.mp hi).2
    by_cases hk : kx = k
    · subst hk
      have hnotin : kx ∉ ks := (List.nodup_cons.mp hnd).1
      rw [if_neg hnotin, if_pos (by simp)]
      rw [List.filter_eq_self.mpr fun j hj => by
        simpa using issueKey_mergeGroup hgrp j hj]
      simp
    · have h1 : (mergeGroup (issues.filter fun i => issueKey i = kx)).filter
          (fun i => issueKey i = k) = [] := by
        rw [List.filter_eq_nil_iff]
        intro j hj
        have hkey := issueKey_mergeGroup hgrp j hj
        simp [hkey]
        exact fun hkk => hk hkk
      rw [h1]
      by_cases hks : k ∈ ks
      · rw [if_pos hks, if_pos (by simp [hks])]
        simp
      · rw [if_neg hks, if_neg ?_]
        · simp
        · simp only [List.mem_cons]
          rintro (hkk | hkk)
          · exact hk hkk.symm
          · exact hks hkk

/-- The filtered view of `_group_related_issues`: the output's issues
having a given key are exactly the merge of that key's group. -/
theorem groupRelatedIssues_filter (issues : List Issue) (k : String) :
    (groupRelatedIssues issues).filter (fun i => issueKey i = k) =
      if k ∈ firstKeys issues then mergeGroup (issues.filter fun i => issueKey i = k)
      else [] := by
  rw [groupRelatedIssues]
  exact filter_flatMap_mergeGroup issues (firstKeys issues) (nodup_firstKeys issues) k

/-- C3: All issues sharing a grouping key (server_name, issue_type)
collapse into exactly one representative: the first member of the
group, its confidence raised by 0.05 per extra duplicate and capped at
1.0, with the merged duplicates' ids in `related_issues`. -/
theorem c3_group_duplicates (issues : List Issue) (s : String) (t : IssueType)
    (htwo : 2 ≤ (issues.filter fun i => issueKey i = s ++ "_" ++ t.value).length) :
    (groupRelatedIssues issues).filter (fun i => issueKey i = s ++ "_" ++ t.value) =
      [{ (issues.filter fun i => issueKey i = s ++ "_" ++ t.value).headI with
          confidence_score :=
            min ((issues.filter fun i => issueKey i = s ++ "_" ++ t.value).headI.confidence_score +
              (((issues.filter fun i => issueKey i = s ++ "_" ++ t.value).length : ℚ) - 1) *
                (1/20)) 1
          related_issues :=
            (issues.filter fun i => issueKey i = s ++ "_" ++ t.value).tail.map
              (fun j => j.issue_id) }] := by
  obtain ⟨a, b, rest, hg2⟩ :
      ∃ a b rest,
        issues.filter (fun i => issueKey i = s ++ "_" ++ t.value) = a :: b :: rest := by
    rcases hgl : issues.filter (fun i => issueKey i = s ++ "_" ++ t.value) with
      - | ⟨a, - | ⟨b, rest⟩⟩
    · rw [hgl] at htwo; simp at htwo
    · rw [hgl] at htwo; simp at htwo
    · exact ⟨a, b, rest, rfl⟩
  have hkmem : (s ++ "_" ++ t.value) ∈ firstKeys issues := by
    rw [mem_firstKeys]
    have ha : a ∈ issues.filter (fun i => issueKey i = s ++ "_" ++ t.value) := by
      rw [hg2]; simp
    rcases List.mem_filter.mp ha with ⟨hin, hkey⟩
    exact ⟨a, hin, by simpa using hkey⟩
  rw [groupRelatedIssues_filter, if_pos hkmem, hg2, mergeGroup]
  simp only [List.headI, List.tail]
  congr 2
  push_cast [List.length_cons]
  ring_nf

/-- Witness for C3: three issues with identical (server_name,
issue_type) collapse to one representative with
`confidence = min(original + 0.10, 1.0)` and two related ids. -/
theorem c3_group_duplicates_witness :
    (groupRelatedIssues
        [w3issue ("i1") (4/5), w3issue ("i2") (4/5), w3issue ("i3") (4/5)]).filter
        (fun i => issueKey i = "srv" ++ "_" ++ IssueType.connection_failure.value) =
      [{ w3issue ("i1") (4/5) with
          confidence_score := min ((4:ℚ)/5 + 1/10) 1
          related_issues := ["i2", "i3"] }] := by
  have h := c3_group_duplicates
      [w3issue ("i1") (4/5), w3issue ("i2") (4/5), w3issue ("i3") (4/5)]
      "srv" IssueType.connection_failure (by decide)
  rw [h]
  norm_num +decide [w3issue, issueKey, IssueType.value]

/-- C5 counterexample: `get_success_rate(issue_type=TIMEOUT)` returns
the overall rate 1/2, not the per-type rate 1 the claim asserts - the
source's `if issue_type:` branch is a no-op `pass`. -/
theorem c5_counterexample :
    getSuccessRate [w5success, w5failed] (some IssueType.timeout) = 1/2 ∧
    claimedTypedSuccessRate [w5success, w5failed] w5typeOf IssueType.timeout = 1 ∧
    (1/2 : ℚ) ≠ 1 := by
  refine ⟨?_, ?_, by norm_num⟩
  · norm_num +decide [getSuccessRate, w5success, w5failed, List.filter]
  · norm_num +decide [claimedTypedSuccessRate, w5success, w5failed, w5typeOf, List.filter]

/-- C5 (amended): `get_success_rate` ignores its `issue_type` argument;
for every history and every optional type it returns the overall
successes ÷ total historical attempts (0 for an empty history). -/
theorem c5_success_rate_ignores_type (history : List RemediationResult)
    (o : Option IssueType) :
    getSuccessRate history o = getSuccessRate history none ∧
    getSuccessRate history o =
      (if history = [] then 0
       else ((history.filter fun r => r.status = RemediationStatus.success).length : ℚ) /
         (history.length : ℚ)) :=
  ⟨rfl, rfl⟩

/-- The retry loop starting from `attempt = start ≥ 1` (every iteration
sleeps first): the outcome is governed by the first successful probe
among the next `n` attempt indices, and the slept delays are exactly
the jittered backoff delays of the iterated attempts. -/
theorem retryLoop_spec_pos (cfg : RetryConfig) (probe : Nat → Bool) (rand : Nat → ℚ) :
    ∀ (n start : Nat) (acc : List ℚ), 1 ≤ start →
      retryLoop cfg probe rand start n acc =
        match (List.range' start n).find? (fun i => probe i) with
        | some i => (some (i + 1),
            acc ++ (List.range' start (i + 1 - start)).map (jitteredDelay cfg rand))
        | none => (none, acc ++ (List.range' start n).map (jitteredDelay cfg rand)) := by
  intro n
  induction n with
  | zero => intro start acc h; simp [retryLoop]
  | succ m ih =>
    intro start acc hstart
    rw [retryLoop]
    rw [if_pos (by omega : start > 0)]
    by_cases hp : probe start
    · rw [if_pos hp]
      rw [List.range'_succ, List.find?_cons_of_pos _ (by simpa using hp)]
      simp only
      rw [show start + 1 - start = 1 by omega]
      simp [List.range']
    · rw [if_neg hp]
      rw [ih (start + 1) _ (by omega)]
      rw [List.range'_succ, List.find?_cons_of_neg _ (by simpa using hp)]
      rcases hfind : (List.range' (start + 1) m).find? (fun i => probe i) with - | i
      · simp only
        simp [List.append_assoc]
      · have hge : start + 1 ≤ i := by
          have hmem := List.mem_of_find?_eq_some hfind
          have := List.mem_range'_1.mp hmem
          omega
        simp only
        rw [show i + 1 - start = (i - start) + 1 by omega, List.range'_succ,
          show i + 1 - (start + 1) = i - start by omega]
        simp [List.append_assoc]

/-- C6: The retry strategy sleeps, before every attempt after the
first, `min(base_delay * exponential_base^(attempt-1), max_delay)`,
multiplied when jitter is enabled by a uniform factor in [0.5, 1.0);
it re-probes connectivity each attempt and returns success with
`details.attempts = i+1` at the first successful probe `i` within
`max_attempts`, else failure with `details.attempts = max_attempts`. -/
theorem c6_retry_strategy (cfg : RetryConfig) (probe : Nat → Bool) (rand : Nat → ℚ)
    (aid iid : String) (ac : ℚ)
    (hrand : ∀ n, 0 ≤ rand n ∧ rand n < 1) :
    (∀ a : Nat, jitteredDelay cfg rand a =
        min (cfg.base_delay * cfg.exponential_base ^ (a - 1)) cfg.max_delay *
          (if cfg.jitter then 1/2 + rand a * (1/2) else 1)) ∧
    (cfg.jitter = true →
      ∀ a : Nat, 1/2 ≤ 1/2 + rand a * (1/2) ∧ 1/2 + rand a * (1/2) < 1) ∧
    (match (List.range cfg.max_attempts).find? (fun i => probe i) with
     | some i =>
         (executeRetryStrategy cfg probe rand aid iid ac).1.status =
           RemediationStatus.success ∧
         (executeRetryStrategy cfg probe rand aid iid ac).1.details_attempts = i + 1 ∧
         (executeRetryStrategy cfg probe rand aid iid ac).2 =
           (List.range' 1 i).map (jitteredDelay cfg rand)
     | none =>
         (executeRetryStrategy cfg probe rand aid iid ac).1.status =
           RemediationStatus.failed ∧
         (executeRetryStrategy cfg probe rand aid iid ac).1.details_attempts =
           cfg.max_attempts ∧
         (executeRetryStrategy cfg probe rand aid iid ac).2 =
           (List.range' 1 (cfg.max_attempts - 1)).map (jitteredDelay cfg rand)) := by
  have hloop : retryLoop cfg probe rand 0 cfg.max_attempts [] =
      (match (List.range cfg.max_attempts).find? (fun i => probe i) with
       | some i => (some (i + 1), (List.range' 1 i).map (jitteredDelay cfg rand))
       | none =>
           (none, (List.range' 1 (cfg.max_attempts - 1)).map (jitteredDelay cfg rand))) := by
    rcases hn : cfg.max_attempts with - | m
    · simp [retryLoop, List.range_zero, List.range']
    · rw [retryLoop]
      rw [if_neg (by omega : ¬ (0 : Nat) > 0)]
      rw [List.range_eq_range', List.range'_succ]
      by_cases hp : probe 0
      · rw [if_pos hp, List.find?_cons_of_pos _ (by simpa using hp)]
        simp [List.range']
      · rw [if_neg hp, List.find?_cons_of_neg _ (by simpa using hp)]
        rw [retryLoop_spec_pos cfg probe rand m 1 [] (le_refl 1)]
        rcases hfind : (List.range' 1 m).find? (fun i => probe i) with - | i
        · simp
        · simp
  refine ⟨?_, ?_, ?_⟩
  · intro a
    unfold jitteredDelay retryDelay
    by_cases hj : cfg.jitter <;> simp [hj]
  · intro hj a
    rcases hrand a with ⟨h0, h1⟩
    constructor <;> nlinarith
  · rcases hfind : (List.range cfg.max_attempts).find? (fun i => probe i) with - | i <;>
      · unfold executeRetryStrategy
        rw [hloop, hfind]
        exact ⟨rfl, rfl, rfl⟩

/-- Witness for C6: default config (max_attempts = 3), connectivity
probe outcomes [false, false, true]: success with attempts = 3. -/
theorem c6_retry_strategy_witness :
    (executeRetryStrategy {} (fun i => i = 2) (fun _ => 0) "retry_connection" "iss1"
        (4/5)).1.status = RemediationStatus.success ∧
    (executeRetryStrategy {} (fun i => i = 2) (fun _ => 0) "retry_connection" "iss1"
        (4/5)).1.details_attempts = 3 := by
  have h := (c6_retry_strategy {} (fun i => i = 2) (fun _ => 0) "retry_connection" "iss1"
      (4/5) (fun n => by norm_num)).2.2
  rw [show (List.range ({} : RetryConfig).max_attempts).find?
      (fun i => decide (i = 2)) = some 2 from by decide] at h
  exact ⟨h.1, h.2.1⟩

theorem lastLevelD_congr (a b : Nat) :
    ∀ (l : List LoadTestResult), l ≠ [] → lastLevelD a l = lastLevelD b l := by
  intro l
  induction l with
  | nil => simp
  | cons r rest ih =>
    intro _
    rcases rest with - | ⟨x, xs⟩
    · rfl
    · exact ih (by simp)

theorem analyzeLoadResults_fst (minRate : ℚ) :
    ∀ (rs : List LoadTestResult) (acc : Nat),
      (analyzeLoadResults minRate acc rs).1 =
        lastLevelD acc (rs.takeWhile fun r => minRate ≤ r.metrics.success_rate) := by
  intro rs
  induction rs with
  | nil => intro acc; rfl
  | cons r rest ih =>
    intro acc
    rw [analyzeLoadResults, List.takeWhile_cons]
    by_cases hp : minRate ≤ r.metrics.success_rate
    · rw [if_pos hp, if_pos (by simpa using hp), ih]
      rcases htw : rest.takeWhile (fun r => decide (minRate ≤ r.metrics.success_rate)) with
        - | ⟨x, xs⟩
      · rw [htw]
        rfl
      · rw [htw]
        exact lastLevelD_congr _ _ _ (by simp)
    · rw [if_neg hp, if_neg (by simpa using hp)]
      rfl

/-- C4 (amended): the escalation loop of `test_concurrent_connections`
tests the levels in order and stops at the first level whose
success_rate drops below 0.5 (that level is still recorded, no higher
one is attempted); the reported `max_stable_connections` is the level
of the last result in the initial run of tested results whose
success_rate is at least the configured minimum (0 when the first
tested level is already below it) - results after the first
below-minimum one are not considered. -/
theorem c4_escalation (cfg : PerformanceTestConfig)
    (loadTest : Nat → LoadTestResult) :
    (∀ lvls : List Nat,
      escalationResults loadTest lvls =
        ((lvls.takeWhile fun l => 1/2 ≤ (loadTest l).metrics.success_rate).map
            loadTest) ++
          ((lvls.dropWhile fun l =>
              1/2 ≤ (loadTest l).metrics.success_rate).take 1).map loadTest) ∧
    (testConcurrentConnections cfg loadTest).2.1 =
      lastLevelD 0
        ((testConcurrentConnections cfg loadTest).1.takeWhile
          (fun r => cfg.min_success_rate ≤ r.metrics.success_rate)) := by
  constructor
  · intro lvls
    induction lvls with
    | nil => rfl
    | cons l rest ih =>
      rw [escalationResults]
      by_cases hp : (loadTest l).metrics.success_rate < 1/2
      · rw [if_pos hp, List.takeWhile_cons, List.dropWhile_cons]
        have hb : decide ((1:ℚ)/2 ≤ (loadTest l).metrics.success_rate) = false := by
          simp only [decide_eq_false_iff_not]
          exact not_le.mpr hp
        simp only [hb]
        simp
      · rw [if_neg hp, List.takeWhile_cons, List.dropWhile_cons]
        have hb : decide ((1:ℚ)/2 ≤ (loadTest l).metrics.success_rate) = true := by
          simp only [decide_eq_true_eq]
          exact not_lt.mp hp
        simp only [hb, if_true]
        rw [ih]
        simp
  · exact analyzeLoadResults_fst cfg.min_success_rate _ 0

/-- C4 counterexample: with the default configuration
(min_success_rate = 0.95) and the rates above, the code reports
`max_stable_connections = 0`, while the highest actually tested level
with success_rate ≥ the minimum is 5 - the claim's description of
`max_stable_connections` is false. -/
theorem c4_counterexample :
    (testConcurrentConnections {} w4load).2.1 = 0 ∧
    highestStableTested ({} : PerformanceTestConfig).min_success_rate
      (testConcurrentConnections {} w4load).1 = 5 ∧
    (0 : Nat) ≠ 5 := by
  refine ⟨?_, ?_, by norm_num⟩ <;>
    norm_num +decide [testConcurrentConnections, escalationResults, connectionLevels,
      analyzeLoadResults, w4load, highestStableTested, List.filter]

/-- The p95 index: `⌊0.95 * n⌋ = (19 * n) / 20` in exact arithmetic. -/
theorem floor_p95_index (n : Nat) :
    ⌊(0.95 : ℚ) * (n : ℚ)⌋₊ = (19 * n) / 20 := by
  have h : (0.95 : ℚ) * (n : ℚ) = ((19 * n : Nat) : ℚ) / ((20 : Nat) : ℚ) := by
    push_cast
    ring_nf
  rw [h, Nat.floor_div_nat, Nat.floor_natCast]

/-- C7: `calculate_derived_metrics` computes the mean, minimum and
maximum of the response-time samples, the p95 as the ascending-sorted
sample at index `⌊0.95 * n⌋`, `success_rate` as
`success_count / (success_count + failure_count + error_count)`, and
`throughput_rps` as total requests over the duration. -/
theorem c7_derived_metrics (m : PerformanceMetrics) (d : ℚ)
    (hresp : m.response_times ≠ []) (hd : 0 < d) :
    (calculateDerivedMetrics m d).avg_response_time =
      m.response_times.sum / (m.response_times.length : ℚ) ∧
    (calculateDerivedMetrics m d).min_response_time = listMin m.response_times ∧
    (calculateDerivedMetrics m d).max_response_time = listMax m.response_times ∧
    (calculateDerivedMetrics m d).p95_response_time =
      (sortAsc m.response_times).getD ⌊(0.95 : ℚ) * (m.response_times.length : ℚ)⌋₊ 0 ∧
    (calculateDerivedMetrics m d).success_rate =
      (m.success_count : ℚ) /
        ((m.success_count + m.failure_count + m.error_count : Nat) : ℚ) ∧
    (calculateDerivedMetrics m d).throughput_rps =
      ((m.success_count + m.failure_count + m.error_count : Nat) : ℚ) / d := by
  have hn : m.response_times.length ≠ 0 := fun h => hresp (List.length_eq_zero.mp h)
  refine ⟨?_, ?_, ?_, ?_, ?_, ?_⟩
  · unfold calculateDerivedMetrics
    rw [if_pos hresp]
    dsimp only
    split_ifs <;> rfl
  · unfold calculateDerivedMetrics
    rw [if_pos hresp]
    dsimp only
    split_ifs <;> rfl
  · unfold calculateDerivedMetrics
    rw [if_pos hresp]
    dsimp only
    split_ifs <;> rfl
  · unfold calculateDerivedMetrics
    rw [if_pos hresp]
    dsimp only
    rw [floor_p95_index]
    split_ifs <;> (try dsimp only) <;> first
      | rfl
      | (exfalso; omega)
  · unfold calculateDerivedMetrics
    rw [if_pos hresp]
    dsimp only
    split_ifs <;> (try dsimp only) <;> first
      | rfl
      | (rename_i htot
         dsimp only at htot
         rw [show m.success_count = 0 by omega]
         simp)
  · unfold calculateDerivedMetrics
    rw [if_pos hresp]
    dsimp only
    split_ifs <;> rfl

/-- Witness for C7 at the concrete example (duration 5 s): avg 200,
min 100, max 300, p95 300, success_rate 0.8, throughput 1 rps. -/
theorem c7_derived_metrics_witness :
    (calculateDerivedMetrics w7m 5).avg_response_time = 200 ∧
    (calculateDerivedMetrics w7m 5).min_response_time = 100 ∧
    (calculateDerivedMetrics w7m 5).max_response_time = 300 ∧
    (calculateDerivedMetrics w7m 5).p95_response_time = 300 ∧
    (calculateDerivedMetrics w7m 5).success_rate = 4/5 ∧
    (calculateDerivedMetrics w7m 5).throughput_rps = 1 := by
  obtain ⟨h1, h2, h3, h4, h5, h6⟩ :=
    c7_derived_metrics w7m 5 (by simp [w7m]) (by norm_num)
  refine ⟨?_, ?_, ?_, ?_, ?_, ?_⟩
  · rw [h1]; norm_num [w7m]
  · rw [h2]; norm_num [w7m, listMin, min_def]
  · rw [h3]; norm_num [w7m, listMax, max_def]
  · rw [h4]
    norm_num [w7m, sortAsc, insertSorted]
    rw [show ⌊(19/4 : ℚ)⌋₊ = 4 from by
      rw [Nat.floor_eq_iff (by norm_num)]
      norm_num]
    rfl
  · rw [h5]; norm_num [w7m]
  · rw [h6]; norm_num [w7m]

/-- C8: `_calculate_performance_grade` starts from 100, deducts 20 for
an average response time over the threshold (else 10 over 80% of it),
30 for a success rate below the configured minimum (else 15 below
0.98), 15 for a p95 over 1.5x the threshold, and maps the score to a
letter totally (always one of A/B/C/D/F) and monotonically
(A ≥90, B ≥80, C ≥70, D ≥60, else F; 95→A, 85→B, 72→C, 65→D, 40→F). -/
theorem c8_performance_grade (cfg : PerformanceTestConfig) (m : PerformanceMetrics) :
    calculatePerformanceGrade cfg m = scoreToGrade (performanceScore cfg m) ∧
    performanceScore cfg m =
      100 -
        (if m.avg_response_time > cfg.max_response_time_ms then 20
         else if m.avg_response_time > cfg.max_response_time_ms * (8/10) then 10
         else 0) -
        (if m.success_rate < cfg.min_success_rate then 30
         else if m.success_rate < 98/100 then 15
         else 0) -
        (if m.p95_response_time > cfg.max_response_time_ms * (3/2) then 15 else 0) ∧
    (∀ sc : ℤ, scoreToGrade sc = "A" ∨ scoreToGrade sc = "B" ∨ scoreToGrade sc = "C" ∨
      scoreToGrade sc = "D" ∨ scoreToGrade sc = "F") ∧
    (∀ s1 s2 : ℤ, s1 ≤ s2 → gradeRank (scoreToGrade s1) ≤ gradeRank (scoreToGrade s2)) ∧
    scoreToGrade 95 = "A" ∧ scoreToGrade 85 = "B" ∧ scoreToGrade 72 = "C" ∧
    scoreToGrade 65 = "D" ∧ scoreToGrade 40 = "F" := by
  refine ⟨rfl, ?_, ?_, ?_, ?_, ?_, ?_, ?_, ?_⟩
  · unfold performanceScore
    dsimp only
    split_ifs <;> ring
  · intro sc
    unfold scoreToGrade
    split_ifs <;> simp
  · intro s1 s2 h
    unfold scoreToGrade
    split_ifs <;> simp [gradeRank] <;> omega
  · norm_num [scoreToGrade]
  · norm_num [scoreToGrade]
  · norm_num [scoreToGrade]
  · norm_num [scoreToGrade]
  · norm_num [scoreToGrade]

/-- Witness for C8: the monotonicity part applied at scores 65 ≤ 95
under the default configuration and empty metrics. -/
theorem c8_performance_grade_witness :
    gradeRank (scoreToGrade 65) ≤ gradeRank (scoreToGrade 95) :=
  (c8_performance_grade {} {}).2.2.2.1 65 95 (by norm_num)

theorem list_nonneg_sum_zero {l : List ℚ} (h0 : ∀ x ∈ l, 0 ≤ x) (hs : l.sum = 0) :
    ∀ x ∈ l, x = 0 := by
  induction l with
  | nil => simp
  | cons a l ih =>
    have ha : 0 ≤ a := h0 a (by simp)
    have hl : 0 ≤ l.sum := List.sum_nonneg (fun x hx => h0 x (by simp [hx]))
    rw [List.sum_cons] at hs
    intro x hx
    rcases List.mem_cons.mp hx with rfl | hx
    · linarith
    · exact ih (fun y hy => h0 y (by simp [hy])) (by linarith) x hx

/-- With at least two sample indices, the centered sum of squares of
the index values is positive (so `_analyze_memory_trend`'s
zero-denominator branch is dead for n ≥ 10). -/
theorem index_var_sum_pos (n : Nat) (hn : 2 ≤ n) :
    0 < (((List.range n).map (fun i : ℕ => (i : ℚ))).map
        (fun x => (x - ((List.range n).map (fun i : ℕ => (i : ℚ))).sum / (n : ℚ)) ^ 2)).sum := by
  set c := ((List.range n).map (fun i : ℕ => (i : ℚ))).sum / (n : ℚ) with hc
  have hterm : ∀ x ∈ ((List.range n).map (fun i : ℕ => (i : ℚ))).map
      (fun x => (x - c) ^ 2), 0 ≤ x := by
    intro x hx
    rcases List.mem_map.mp hx with ⟨y, -, rfl⟩
    exact sq_nonneg _
  have h0n : (0 : ℕ) ∈ List.range n := List.mem_range.mpr (by omega)
  have h1n : (1 : ℕ) ∈ List.range n := List.mem_range.mpr (by omega)
  have hx0 := List.mem_map_of_mem (fun i : ℕ => (i : ℚ)) h0n
  have hx1 := List.mem_map_of_mem (fun i : ℕ => (i : ℚ)) h1n
  simp only [Nat.cast_zero] at hx0
  simp only [Nat.cast_one] at hx1
  have hmem0 : ((0 : ℚ) - c) ^ 2 ∈ ((List.range n).map (fun i : ℕ => (i : ℚ))).map
      (fun x => (x - c) ^ 2) := List.mem_map_of_mem _ hx0
  have hmem1 : ((1 : ℚ) - c) ^ 2 ∈ ((List.range n).map (fun i : ℕ => (i : ℚ))).map
      (fun x => (x - c) ^ 2) := List.mem_map_of_mem _ hx1
  by_cases hcz : c = 0
  · have h1 : ((1 : ℚ) - c) ^ 2 = 1 := by rw [hcz]; norm_num
    have := List.single_le_sum hterm _ hmem1
    linarith
  · have h0 : 0 < ((0 : ℚ) - c) ^ 2 := by
      have : (0 : ℚ) - c ≠ 0 := by
        intro h
        apply hcz
        linarith
      positivity
    have := List.single_le_sum hterm _ hmem0
    linarith

/-- C9: `_analyze_memory_trend` returns 0 with fewer than 10 samples,
and otherwise the least-squares slope of the (nonnegative memory)
samples over their indices times `sample_count / mean(samples)`. -/
theorem c9_memory_trend (samples : List ℚ) (hpos : ∀ x ∈ samples, 0 ≤ x) :
    (samples.length < 10 → analyzeMemoryTrend samples = 0) ∧
    (10 ≤ samples.length →
      analyzeMemoryTrend samples =
        olsSlope samples * (samples.length : ℚ) /
          (samples.sum / (samples.length : ℚ))) := by
  constructor
  · intro h
    unfold analyzeMemoryTrend
    rw [if_pos h]
  · intro h10
    have hnq : (0 : ℚ) < (samples.length : ℚ) := by
      exact_mod_cast Nat.pos_of_ne_zero (by omega)
    unfold analyzeMemoryTrend olsSlope
    rw [if_neg (by omega)]
    dsimp only
    rw [if_neg (ne_of_gt (index_var_sum_pos samples.length (by omega)))]
    by_cases hm : samples.sum / (samples.length : ℚ) > 0
    · rw [if_pos hm]
    · rw [if_neg hm]
      have hsle : samples.sum ≤ 0 := by
        have h' := not_lt.mp hm
        have := mul_nonpos_of_nonpos_of_nonneg h' (le_of_lt hnq)
        rw [div_mul_cancel₀ _ (ne_of_gt hnq)] at this
        exact this
      have hs0 : samples.sum = 0 :=
        le_antisymm hsle (List.sum_nonneg hpos)
      have hall := list_nonneg_sum_zero hpos hs0
      have hnum : ((((List.range samples.length).map (fun i : ℕ => (i : ℚ))).zip
          samples).map
            (fun p => (p.1 - ((List.range samples.length).map (fun i : ℕ => (i : ℚ))).sum /
                (samples.length : ℚ)) *
              (p.2 - samples.sum / (samples.length : ℚ)))).sum = 0 := by
        apply List.sum_eq_zero
        intro z hz
        rcases List.mem_map.mp hz with ⟨p, hp, rfl⟩
        have hp2 : p.2 ∈ samples := (List.of_mem_zip hp).2
        rw [hall p.2 hp2, hs0]
        norm_num
      rw [hnum]
      simp

/-- Witness for C9: 10 samples rising by 10 from 100 give trend
20/29 > 0.10; 10 samples oscillating ±3 around 100 give trend -1/55,
below 0.05 in absolute value; 2 samples give trend 0. -/
theorem c9_memory_trend_witness :
    analyzeMemoryTrend [100, 110, 120, 130, 140, 150, 160, 170, 180, 190] > 1/10 ∧
    |analyzeMemoryTrend [103, 97, 103, 97, 103, 97, 103, 97, 103, 97]| < 1/20 ∧
    analyzeMemoryTrend [100, 110] = 0 := by
  have hr : List.range 10 = [0, 1, 2, 3, 4, 5, 6, 7, 8, 9] := rfl
  refine ⟨?_, ?_, ?_⟩
  · norm_num [analyzeMemoryTrend, hr]
  · norm_num [analyzeMemoryTrend, hr]
    rw [abs_of_nonneg (by norm_num)]
    norm_num
  · exact (c9_memory_trend [100, 110] (by norm_num)).1 (by norm_num)

